import Mathlib

/-!
Verification of the notes-app overlay widget (src/src/App.tsx) against its
natural-language specification.

The frontend (App.tsx) is a React/Tauri component.  We embed its
persistence-relevant behaviour shallowly:

* `DebounceState` models the debounced auto-save machinery: the in-memory
  `noteContent`, the single pending `setTimeout` (snapshot and fire time),
  and the log of issued save invocations (fire time, content).
* The auto-save `useEffect` (App.tsx lines 17-26) clears the previous timer
  and schedules `saveNote` 500 ms after every change of `noteContent`; it
  also runs once on initial mount with the initial empty content.
* The standalone `debounce` utility (App.tsx lines 264-271) is the same
  cancel-and-reschedule pattern without React's equal-state bailout; it is
  embedded as `onEdit`.
* The backend Tauri commands (`load_note`, `save_note`,
  `force_window_on_top`, `debug_window_info`) and the window visibility
  controller are Rust code not present under src/; where a claim depends on
  them they are modelled from the spec, as marked in their doc comments.

Machine time is `Nat` milliseconds; the debounce interval is `D = 500`.
-/

/-- Debounce interval in milliseconds (the literal `500` passed to
`setTimeout` in the auto-save effect and to `debounce`). -/
def D : Nat := 500

/-- State of the debounced persistence machinery: the current in-memory note
content, the single pending scheduled save (snapshot content and fire time),
and the chronological log of save invocations issued so far, each recorded
as (fire time, content). -/
structure DebounceState where
  content : String
  pending : Option (String × Nat)
  saves : List (Nat × String)
deriving Repr, DecidableEq

/-- Coordinator state with no pending timer and no saves issued, the state of
the bare `debounce` utility before its returned closure is ever called. -/
def initState : DebounceState :=
  { content := "", pending := none, saves := [] }

/-- One call of the closure returned by `debounce` (App.tsx lines 264-271) at
time `t` with content `c`: `clearTimeout` cancels any pending timer and
`setTimeout` schedules a new save of `c` at `t + D`.  The in-memory content
becomes `c`. -/
def onEdit (s : DebounceState) (t : Nat) (c : String) : DebounceState :=
  { s with content := c, pending := some (c, t + D) }

/-- Event-loop timer delivery: at time `now`, a pending timer whose deadline
has been reached fires, issuing the save of its snapshot and clearing the
slot; otherwise nothing happens. -/
def fireIfDue (s : DebounceState) (now : Nat) : DebounceState :=
  match s.pending with
  | some (c, d) =>
      if d ≤ now then
        { content := s.content, pending := none, saves := s.saves ++ [(d, c)] }
      else s
  | none => s

/-- Deliver a timestamped sequence of edit events: before each edit any timer
already due fires (the event loop serialises timer callbacks before later
edits), then the edit cancels-and-reschedules per `onEdit`. -/
def runEdits (s : DebounceState) : List (Nat × String) → DebounceState
  | [] => s
  | (t, c) :: rest => runEdits (onEdit (fireIfDue s t) t c) rest

/-- Let the quiet period elapse: the pending timer, if any, fires at its
deadline and issues its save. -/
def runToQuiescence (s : DebounceState) : DebounceState :=
  match s.pending with
  | some (c, d) =>
      { content := s.content, pending := none, saves := s.saves ++ [(d, c)] }
  | none => s

/-- The edit sequence is chronological and every gap between consecutive
edits is strictly shorter than the debounce interval. -/
def gapsOk : List (Nat × String) → Bool
  | (t1, _) :: (t2, c2) :: rest =>
      decide (t1 ≤ t2) && decide (t2 < t1 + D) && gapsOk ((t2, c2) :: rest)
  | _ => true

/-- The last edit of the sequence, with `e` as default for the empty list. -/
def lastEdit (e : Nat × String) : List (Nat × String) → Nat × String
  | [] => e
  | e2 :: rest => lastEdit e2 rest

/-- Unmount cleanup of the auto-save effect (App.tsx line 25,
`return () => clearTimeout(timeoutId)`): on clean shutdown the pending timer
is cleared; no save is issued.  This is the entire shutdown path of the
source — there is no flush handler. -/
def unmountCleanup (s : DebounceState) : DebounceState :=
  { s with pending := none }

/-- State right after the initial React mount: `noteContent` starts as `""`
(App.tsx line 8) and the auto-save effect runs on mount, scheduling a save of
the empty string at time `D` (mount is at time `0`). -/
def mountApp : DebounceState :=
  { content := "", pending := some ("", D), saves := [] }

/-- `setNoteContent(c)` at time `t` under React semantics: if `c` equals the
current content React bails out (no re-render, the auto-save effect does not
re-run, the pending timer is untouched); otherwise the effect cleanup clears
the old timer and the effect schedules a save of `c` at `t + D`.  This is the
path taken both by user edits through the textarea `onChange` and by
`loadNote` seeding the loaded content (App.tsx line 31). -/
def setNoteContent (s : DebounceState) (t : Nat) (c : String) : DebounceState :=
  if c = s.content then s
  else { s with content := c, pending := some (c, t + D) }

/-- Errors of the Note Store taxonomy (spec section 7). -/
inductive StorageError
  | storageUnavailable
  | writeFailed
deriving Repr, DecidableEq

/-- Modelled from the spec: the durable Note Store behind the Rust Tauri
commands is absent from src/.  Per spec sections 4.1 and 6 it is a single
opaque text blob (`blob`), empty when no note exists yet; `readable` and
`writable` model whether the backing medium can currently be read or
written. -/
structure StoreState where
  blob : String
  readable : Bool
  writable : Bool
deriving Repr, DecidableEq

/-- Modelled from the spec: the backend command `load_note` returns the
durable note content (empty string if none exists yet) and fails with
`StorageUnavailable` when the backing medium cannot be read. -/
def load_note (st : StoreState) : Except StorageError String :=
  if st.readable then .ok st.blob else .error .storageUnavailable

/-- Modelled from the spec: the backend command `save_note` fully replaces
the durable blob with `c`, durable on success, and fails with
`StorageUnavailable` on I/O error. -/
def save_note (st : StoreState) (c : String) : Except StorageError StoreState :=
  if st.writable then .ok { st with blob := c } else .error .storageUnavailable

/-- Frontend `saveNote` (App.tsx lines 39-45): invoke `save_note` with the
current content; on failure catch the error and `console.error` a message —
the error never propagates further. -/
def saveNote (st : StoreState) (lg : List String) (c : String) :
    StoreState × List String :=
  match save_note st c with
  | .ok st2 => (st2, lg)
  | .error _ => (st, lg ++ ["Failed to save note"])

/-- The pending debounce timer fires and its callback runs frontend
`saveNote` against the store; the invocation is recorded in the coordinator's
save log.  A no-op when nothing is pending. -/
def fireSave (s : DebounceState) (st : StoreState) (lg : List String) :
    DebounceState × StoreState × List String :=
  match s.pending with
  | some (c, d) =>
      let r := saveNote st lg c
      ({ s with pending := none, saves := s.saves ++ [(d, c)] }, r.1, r.2)
  | none => (s, st, lg)

/-- The component state of `App` besides the note content machinery: the
settings-panel flag and the loading flag (App.tsx lines 9-10). -/
structure FrontState where
  noteContent : String
  showSettings : Bool
  isLoading : Bool
deriving Repr, DecidableEq

/-- Initial component state (App.tsx lines 8-10): empty content, settings
closed, loading. -/
def initFront : FrontState :=
  { noteContent := "", showSettings := false, isLoading := true }

/-- Frontend `loadNote` (App.tsx lines 28-37) applied to the result of the
`load_note` invocation: on success the content is seeded into `noteContent`;
on failure the error is caught and logged and `noteContent` is left as it
was; either way `isLoading` becomes `false`. -/
def loadNote (f : FrontState) (r : Except StorageError String) : FrontState :=
  match r with
  | .ok c => { f with noteContent := c, isLoading := false }
  | .error _ => { f with isLoading := false }

/-- Modelled from the spec: the Window Visibility Controller lives in the
Rust backend, absent from src/; its states per spec section 4.3. -/
inductive WindowVisibilityState
  | Hidden
  | Visible
  | VisibleForcedOnTop
deriving Repr, DecidableEq

/-- Modelled from the spec: the global-hotkey toggle transition of the
Window Visibility Controller (spec section 4.3): `Hidden → Visible`, and
both visible states `→ Hidden`. -/
def toggleHotkey : WindowVisibilityState → WindowVisibilityState
  | .Hidden => .Visible
  | .Visible => .Hidden
  | .VisibleForcedOnTop => .Hidden

/-- Modelled from the spec: the `forceOnTop` transition (spec section 4.3):
`Visible → VisibleForcedOnTop`, idempotent if already forced.  The spec
defines it only for the visible states; from `Hidden` it is a no-op. -/
def forceOnTop : WindowVisibilityState → WindowVisibilityState
  | .Visible => .VisibleForcedOnTop
  | .VisibleForcedOnTop => .VisibleForcedOnTop
  | .Hidden => .Hidden

/-- Frontend `debugWindowInfo` (App.tsx lines 61-69) applied to the result of
the `debug_window_info` invocation.  The component state, the coordinator
state and the durable store are passed through untouched; the only output is
the console/alert text, and a failed invocation is caught and logged. -/
def debugWindowInfo (f : FrontState) (s : DebounceState) (st : StoreState)
    (r : Except String String) :
    FrontState × DebounceState × StoreState × List String :=
  match r with
  | .ok info => (f, s, st, ["Window Debug Info:\n" ++ info])
  | .error e => (f, s, st, ["Failed to get debug info: " ++ e])

/-! ## Helper lemmas -/

/-- Running a gap-respecting edit sequence from a state whose pending timer
was set by an edit at the sequence's head time leaves exactly the last edit
pending, never fires a timer, and tracks the last content. -/
theorem runEdits_gaps (es : List (Nat × String)) :
    ∀ (t0 : Nat) (c0 : String) (ss : List (Nat × String)),
      gapsOk ((t0, c0) :: es) = true →
      runEdits { content := c0, pending := some (c0, t0 + D), saves := ss } es
        = { content := (lastEdit (t0, c0) es).2,
            pending := some ((lastEdit (t0, c0) es).2, (lastEdit (t0, c0) es).1 + D),
            saves := ss } := by
  induction es with
  | nil =>
      intro t0 c0 ss _
      rfl
  | cons e rest ih =>
      intro t0 c0 ss h
      obtain ⟨t1, c1⟩ := e
      simp only [gapsOk, Bool.and_eq_true, decide_eq_true_eq] at h
      obtain ⟨⟨h01, h02⟩, h1⟩ := h
      have hnotdue : ¬ t0 + D ≤ t1 := Nat.not_le.mpr h02
      have hfire :
          fireIfDue { content := c0, pending := some (c0, t0 + D), saves := ss } t1
            = { content := c0, pending := some (c0, t0 + D), saves := ss } := by
        simp [fireIfDue, hnotdue]
      show runEdits
        (onEdit (fireIfDue { content := c0, pending := some (c0, t0 + D), saves := ss } t1) t1 c1)
        rest = _
      rw [hfire]
      have honed :
          onEdit { content := c0, pending := some (c0, t0 + D), saves := ss } t1 c1
            = { content := c1, pending := some (c1, t1 + D), saves := ss } := rfl
      rw [honed]
      exact ih t1 c1 ss h1

/-! ## Claims -/

/-- Claim C1: for every chronological sequence of edit events whose
consecutive gaps are all shorter than the debounce interval `D`, the
coordinator issues exactly one save once the quiet period elapses, its
content is the content of the last edit, its fire time is `D` milliseconds
after the last edit, and zero saves are issued before the quiet period after
the last edit elapses. -/
theorem debounce_collapses_to_single_last_save
    (t0 : Nat) (c0 : String) (rest : List (Nat × String))
    (h : gapsOk ((t0, c0) :: rest) = true) :
    (runEdits initState ((t0, c0) :: rest)).saves = [] ∧
    (runToQuiescence (runEdits initState ((t0, c0) :: rest))).saves
      = [((lastEdit (t0, c0) rest).1 + D, (lastEdit (t0, c0) rest).2)] := by
  have key :
      runEdits initState ((t0, c0) :: rest)
        = { content := (lastEdit (t0, c0) rest).2,
            pending := some ((lastEdit (t0, c0) rest).2, (lastEdit (t0, c0) rest).1 + D),
            saves := [] } := by
    show runEdits (onEdit (fireIfDue initState t0) t0 c0) rest = _
    exact runEdits_gaps rest t0 c0 [] h
  rw [key]
  exact ⟨rfl, rfl⟩

/-- Witness for C1 at the spec's own scenario: edits "H", "He", "Hello"
100 ms apart collapse to the single save ("Hello") fired 500 ms after the
last keystroke, with zero saves before that. -/
theorem debounce_collapses_witness :
    (runEdits initState [(0, "H"), (100, "He"), (200, "Hello")]).saves = [] ∧
    (runToQuiescence (runEdits initState [(0, "H"), (100, "He"), (200, "Hello")])).saves
      = [(700, "Hello")] :=
  debounce_collapses_to_single_last_save 0 "H" [(100, "He"), (200, "Hello")] (by decide)

/-- Claim C2 counterexample: an edit at time 0 leaves a flush pending, and a
clean shutdown 100 ms later (the effect cleanup, the source's entire
shutdown path) issues no save at all — the save log stays empty and the
pending snapshot is discarded, so "Hello" is lost. -/
theorem shutdown_drops_pending_flush_cex :
    (unmountCleanup (onEdit initState 0 "Hello")).saves = [] ∧
    (unmountCleanup (onEdit initState 0 "Hello")).pending = none :=
  ⟨rfl, rfl⟩

/-- Claim C2 as amended: on clean shutdown while a flush is pending, the
cleanup cancels the pending timer and issues no save — the save log is
unchanged — so the last edit within the debounce window is lost to a clean
exit. -/
theorem shutdown_cancels_pending_flush (s : DebounceState) :
    (unmountCleanup s).pending = none ∧ (unmountCleanup s).saves = s.saves :=
  ⟨rfl, rfl⟩

/-- Claim C3 counterexample: from the freshly mounted app, seeding the loaded
content "abc" with no user edit leaves a save of "abc" scheduled for `D`
milliseconds later — seeding does trigger the auto-save path. -/
theorem seeding_schedules_save_cex :
    (setNoteContent mountApp 100 "abc").pending = some ("abc", 100 + D) := by
  simp [setNoteContent, mountApp]

/-- Claim C3 as amended: seeding the loaded content is applied once after the
startup load, but it does feed the auto-save effect: after mount and seed a
save is always scheduled even with no user edit, and when the loaded content
differs from the initial empty content the scheduled save carries exactly the
seeded content. -/
theorem seeding_schedules_save (t : Nat) (c : String) :
    (setNoteContent mountApp t c).pending ≠ none ∧
    (c ≠ "" → (setNoteContent mountApp t c).pending = some (c, t + D)) := by
  by_cases hc : c = ""
  · subst hc
    refine ⟨by simp [setNoteContent, mountApp], fun h => absurd rfl h⟩
  · constructor
    · simp [setNoteContent, mountApp, hc]
    · intro _
      simp [setNoteContent, mountApp, hc]

/-- Witness for the amended C3 at the seed content "abc" at time 100. -/
theorem seeding_schedules_save_witness :
    (setNoteContent mountApp 100 "abc").pending ≠ none ∧
    (setNoteContent mountApp 100 "abc").pending = some ("abc", 100 + D) := by
  have h := seeding_schedules_save 100 "abc"
  exact ⟨h.1, h.2 (by decide)⟩

/-- Claim C4: a failed save leaves the durable store and the log's history
unchanged except for an appended failure message (never silent, never a
crash — `saveNote` is total), the coordinator's in-memory state is untouched
by the save path, a subsequent edit schedules a fresh save of the current
content, and firing that timer attempts the save again — persisting the
current content whenever the store is writable by then. -/
theorem save_failure_logged_and_retried
    (st : StoreState) (lg : List String) (c : String)
    (hw : st.writable = false)
    (s : DebounceState) (t : Nat) (c2 : String) (st2 : StoreState) :
    saveNote st lg c = (st, lg ++ ["Failed to save note"]) ∧
    (onEdit s t c2).pending = some (c2, t + D) ∧
    (fireSave (onEdit s t c2) st2 lg).1.saves = s.saves ++ [(t + D, c2)] ∧
    (st2.writable = true →
      (fireSave (onEdit s t c2) st2 lg).2.1.blob = c2) := by
  refine ⟨?_, rfl, rfl, ?_⟩
  · simp [saveNote, save_note, hw]
  · intro hw2
    simp [fireSave, onEdit, saveNote, save_note, hw2]

/-- Witness for C4: saving "x" against an unwritable store fails, is logged,
and leaves the blob "old" in place; after a later edit to "y" the retry
against a recovered store persists "y". -/
theorem save_failure_witness :
    saveNote ⟨"old", true, false⟩ [] "x"
      = (⟨"old", true, false⟩, ["Failed to save note"]) ∧
    (fireSave (onEdit initState 0 "y") ⟨"old", true, true⟩ []).2.1.blob = "y" := by
  have h := save_failure_logged_and_retried ⟨"old", true, false⟩ [] "x" rfl
    initState 0 "y" ⟨"old", true, true⟩
  exact ⟨h.1, h.2.2.2 rfl⟩

/-- Claim C5: on a readable and writable store, `save_note X` then
`load_note` returns `X` for every content `X` (including the empty string and
contents with separator characters — `X` is arbitrary), and `load_note`
followed by `save_note` of the unmodified loaded content leaves the stored
state byte-identical to before. -/
theorem store_round_trip
    (st : StoreState) (x : String)
    (hr : st.readable = true) (hw : st.writable = true) :
    (∃ st2, save_note st x = .ok st2 ∧ load_note st2 = .ok x) ∧
    (∀ c, load_note st = .ok c → save_note st c = .ok st) := by
  constructor
  · refine ⟨{ st with blob := x }, ?_, ?_⟩
    · simp [save_note, hw]
    · simp [load_note, hr]
  · intro c hc
    obtain ⟨b, r, w⟩ := st
    simp only [load_note] at hc
    simp only at hr hw
    subst hr; subst hw
    simp only [if_true, reduceIte, Except.ok.injEq] at hc
    subst hc
    simp [save_note]

/-- Witness for C5: round trip of a content containing newlines and a
separator line through a concrete store, and byte-identical idempotence of
load-then-save on that store. -/
theorem store_round_trip_witness :
    (∃ st2, save_note ⟨"prev", true, true⟩ "a\n---\nb" = .ok st2 ∧
      load_note st2 = .ok "a\n---\nb") ∧
    save_note ⟨"prev", true, true⟩ "prev" = .ok ⟨"prev", true, true⟩ := by
  have h := store_round_trip ⟨"prev", true, true⟩ "a\n---\nb" rfl rfl
  exact ⟨h.1, h.2 "prev" rfl⟩

/-- Claim C6: on first run (empty blob, readable medium) `load_note` returns
the empty string without an error; and when the load does fail, the frontend
catches the error, the in-memory content stays the empty string, and loading
still completes. -/
theorem first_run_load_empty
    (st : StoreState) (hb : st.blob = "") (hr : st.readable = true)
    (e : StorageError) :
    load_note st = .ok "" ∧
    (loadNote initFront (.error e)).noteContent = "" ∧
    (loadNote initFront (.error e)).isLoading = false := by
  refine ⟨?_, rfl, rfl⟩
  simp [load_note, hr, hb]

/-- Witness for C6 at a concrete empty readable store and a concrete load
failure. -/
theorem first_run_load_empty_witness :
    load_note ⟨"", true, true⟩ = .ok "" ∧
    (loadNote initFront (.error .storageUnavailable)).noteContent = "" ∧
    (loadNote initFront (.error .storageUnavailable)).isLoading = false :=
  first_run_load_empty ⟨"", true, true⟩ rfl rfl .storageUnavailable

/-- Claim C7: `toggleHotkey` is an involution on the hidden/visible axis —
applied twice from `Hidden` the controller is back at `Hidden`, and applied
once from `VisibleForcedOnTop` it is `Hidden`. -/
theorem toggleHotkey_involution :
    toggleHotkey (toggleHotkey .Hidden) = .Hidden ∧
    toggleHotkey .VisibleForcedOnTop = .Hidden :=
  ⟨rfl, rfl⟩

/-- Claim C8: `forceOnTop` is idempotent — called twice in a row from
`Visible` or from `VisibleForcedOnTop` the controller ends at
`VisibleForcedOnTop`, and the transition is total so repeating it raises no
error. -/
theorem forceOnTop_idempotent :
    forceOnTop (forceOnTop .Visible) = .VisibleForcedOnTop ∧
    forceOnTop (forceOnTop .VisibleForcedOnTop) = .VisibleForcedOnTop :=
  ⟨rfl, rfl⟩

/-- Claim C9: `debugWindowInfo` is diagnostic-only — whether the invocation
succeeds or fails, the component state (note content, settings and loading
flags), the coordinator state and the durable store are identical before and
after the call; only diagnostic text is produced. -/
theorem debugWindowInfo_pure
    (f : FrontState) (s : DebounceState) (st : StoreState)
    (r : Except String String) :
    (debugWindowInfo f s st r).1 = f ∧
    (debugWindowInfo f s st r).2.1 = s ∧
    (debugWindowInfo f s st r).2.2.1 = st := by
  cases r <;> exact ⟨rfl, rfl, rfl⟩

/-- Claim C10: the auto-save effect runs on initial mount with the initial
empty content, scheduling a save of `""` at `D` = 500 ms after mount; in the
execution where `load_note` has not yet resolved when that timer fires, the
fired save invokes `save_note` with `""` and overwrites the durable note
(initially `blob`) with the empty string before any loaded content is
applied. -/
theorem mount_race_overwrites_store (blob : String) :
    mountApp.pending = some ("", D) ∧
    (fireSave mountApp ⟨blob, true, true⟩ []).2.1.blob = "" ∧
    (fireSave mountApp ⟨blob, true, true⟩ []).1.saves = [(D, "")] := by
  refine ⟨rfl, ?_, rfl⟩
  simp [fireSave, mountApp, saveNote, save_note]
